import Mathlib

/-!
Shallow embedding of the agent execution pipeline of `simple-ai-agents`:
prompt rendering and the placeholder machinery (`src/core/agent.py`),
the three validation gates (`src/core/validator.py`),
the retrying model client (`src/core/model_client.py`, tenacity decorator),
and the image subsystem (`src/utils/image_processor.py`).

External libraries whose behaviour is not decided by this repository's code
(Python's `json` decoder, the fenced-code-block extraction regex applied to
arbitrary responses, the HTTP model endpoint, PIL decoding, the filesystem,
the interactive operator) are modelled as explicit function/value parameters;
everything the repository itself computes is embedded concretely.
-/

namespace SimpleAgents

/-- JSON-like runtime values (Python scalars, lists, dicts) used for agent
inputs and parsed model outputs. -/
inductive Value where
  | null
  | bool (b : Bool)
  | num (n : Int)
  | str (s : String)
  | arr (xs : List Value)
  | obj (kvs : List (String × Value))

mutual

/-- Models `json.dumps(value, ensure_ascii=False, indent=2)` from the Python
standard library (external to the repository). No theorem below relies on the
exact formatting, only on the fact that structured values are serialized. -/
def jsonDumps : Value → String
  | .null => "null"
  | .bool b => if b then "true" else "false"
  | .num n => toString n
  | .str s => "\"" ++ s ++ "\""
  | .arr xs => "[" ++ jsonDumpsArr xs ++ "]"
  | .obj kvs => "\x7b" ++ jsonDumpsObj kvs ++ "\x7d"

/-- Serializes the elements of a JSON array. -/
def jsonDumpsArr : List Value → String
  | [] => ""
  | [x] => jsonDumps x
  | x :: xs => jsonDumps x ++ ", " ++ jsonDumpsArr xs

/-- Serializes the members of a JSON object. -/
def jsonDumpsObj : List (String × Value) → String
  | [] => ""
  | [kv] => "\"" ++ kv.1 ++ "\": " ++ jsonDumps kv.2
  | kv :: kvs => "\"" ++ kv.1 ++ "\": " ++ jsonDumps kv.2 ++ ", " ++ jsonDumpsObj kvs

end

/-- Models Python's `str()` applied to a scalar value (`agent.py` line 90).
Lists and dicts never reach this call in `render_prompt` (they are serialized
by `json.dumps` first); for totality they are serialized the same way here. -/
def pyStr : Value → String
  | .null => "None"
  | .bool b => if b then "True" else "False"
  | .num n => toString n
  | .str s => s
  | v => jsonDumps v

/-- Python `dict.get`: first binding of the key, if any. -/
def dictGet (m : List (String × Value)) (k : String) : Option Value :=
  (m.find? (fun p => p.1 == k)).map (·.2)

/-- Python dict assignment `d[k] = v`: replace in place if the key exists
(keeping its position), else append. -/
def dictSet (m : List (String × Value)) (k : String) (v : Value) : List (String × Value) :=
  if m.any (fun p => p.1 == k) then
    m.map (fun p => if p.1 == k then (k, v) else p)
  else m ++ [(k, v)]

/-- Whitespace characters stripped by Python's `str.strip()`. -/
def isPySpace (c : Char) : Bool :=
  c = ' ' || c = '\t' || c = '\n' || c = '\r' || c = '\x0b' || c = '\x0c'

/-- Models Python's `str.strip()`: remove leading and trailing whitespace. -/
def pyStrip (s : String) : String :=
  String.mk (((s.toList.dropWhile isPySpace).reverse.dropWhile isPySpace).reverse)

/-- Models Python's `str.lower()` on the ASCII range. -/
def pyLower (s : String) : String :=
  String.mk (s.toList.map fun c =>
    if 'A' ≤ c ∧ c ≤ 'Z' then Char.ofNat (c.toNat + 32) else c)

/-- Python regex word character `\w` as used by the placeholder pattern
`\{\{(\w+)\}\}` in `agent.py` line 92 and `validator.py` line 54
(ASCII letters, digits, underscore; non-ASCII word characters are outside
the scope of the claims considered here). -/
def isWordChar (c : Char) : Bool :=
  c.isAlphanum || c = '_'

/-- Attempt to match the placeholder regex `\{\{(\w+)\}\}` anchored at the
start of the character list. `\w+` is greedy and, since the two characters
that must follow it are braces (not word characters), backtracking can never
produce a match that the maximal word run does not: the pattern matches here
iff the input starts with two braces, a non-empty maximal run of word
characters, and two closing braces. Returns the captured name and the
characters after the match. -/
def tryMatch : List Char → Option (List Char × List Char)
  | c1 :: c2 :: t =>
    if c1 = '{' ∧ c2 = '{' then
      if (t.takeWhile isWordChar).isEmpty then none
      else
        match t.dropWhile isWordChar with
        | d1 :: d2 :: after =>
          if d1 = '}' ∧ d2 = '}' then some (t.takeWhile isWordChar, after) else none
        | _ => none
    else none
  | _ => none

/-- A scanned template is a sequence of literal characters and placeholder
references, exactly the decomposition `re.sub` / `re.findall` perform with
the pattern `\{\{(\w+)\}\}` (leftmost, non-overlapping matches). -/
inductive Tok where
  | lit (c : Char)
  | field (name : String)

/-- Left-to-right regex scan. The fuel argument is always instantiated with
the length of the input; every step consumes at least one character, so the
fuel never runs out before the input does. -/
def scanAux : Nat → List Char → List Tok
  | 0, _ => []
  | _ + 1, [] => []
  | fuel + 1, c :: rest =>
    match tryMatch (c :: rest) with
    | some (word, after) => .field (String.mk word) :: scanAux fuel after
    | none => .lit c :: scanAux fuel rest

/-- Scan a full template for placeholder matches. -/
def scanTemplate (cs : List Char) : List Tok :=
  scanAux cs.length cs

/-- The `replace_field` inner function of `Agent.render_prompt`
(`agent.py` lines 82-90): substitute the field's value (JSON-serialized if it
is a list or dict, `str()` otherwise); an absent field becomes the visible
diagnostic marker `\x7b\x7b不存在的字段: name\x7d\x7d`. -/
def replaceField (inputs : List (String × Value)) (fieldName : String) : String :=
  match dictGet inputs fieldName with
  | none => "\x7b\x7b不存在的字段: " ++ fieldName ++ "\x7d\x7d"
  | some v =>
    match v with
    | .arr xs => jsonDumps (.arr xs)
    | .obj kvs => jsonDumps (.obj kvs)
    | v => pyStr v

/-- Rendering of a single scanned token. -/
def tokStr (inputs : List (String × Value)) : Tok → String
  | .lit c => String.singleton c
  | .field name => replaceField inputs name

/-- `Agent.render_prompt` (`agent.py` lines 71-95):
`re.sub(r'\{\{(\w+)\}\}', replace_field, template)`. -/
def renderPrompt (template : String) (inputs : List (String × Value)) : String :=
  String.join ((scanTemplate template.toList).map (tokStr inputs))

/-- Names captured by the scanned placeholder matches. -/
def fieldsOf (toks : List Tok) : List String :=
  toks.filterMap fun t =>
    match t with
    | .field n => some n
    | .lit _ => none

/-- `re.findall(r'\{\{(\w+)\}\}', s)` as used by
`Validator.validate_prompt_templates` (`validator.py` lines 54-60). -/
def findallFields (s : String) : List String :=
  fieldsOf (scanTemplate s.toList)

/-- The fields of `AgentConfig` (`config_loader.py` lines 100-106) consulted
by the pipeline. The two prompt-path fields only locate template files and
carry no pipeline logic. -/
structure AgentConfig where
  type : String
  inputs : List String
  outputs : List String

/-- `ValidationConfig` (`config_loader.py` lines 115-123). -/
structure ValidationConfig where
  prompt_template_validation : Bool
  prompt_template_strict : Bool
  input_validation : Bool
  input_strict : Bool
  output_validation : Bool
  output_strict : Bool
  output_fill_missing : Bool

/-- Python's `set(a) - set(b)` rendered back to a list: duplicates removed,
members of `b` removed. Python's set iteration order is unspecified; here the
first-occurrence order of `a` is used. Every claim below depends only on the
members of the resulting list. -/
def setDiff (a b : List String) : List String :=
  a.dedup.filter (fun f => !b.contains f)

/-- `Validator.validate_prompt_templates` (`validator.py` lines 27-73).
Collecting references with `for prompt in [system, user]: if prompt:` skips
empty strings, which contribute no matches anyway. -/
def validate_prompt_templates (cfg : ValidationConfig) (agentConfig : AgentConfig)
    (systemPrompt userPrompt : String) : Bool × List String :=
  if !cfg.prompt_template_validation then (true, [])
  else if agentConfig.inputs.isEmpty then (true, [])
  else
    let referenced := findallFields systemPrompt ++ findallFields userPrompt
    let missingRefs := setDiff agentConfig.inputs referenced
    if !missingRefs.isEmpty && cfg.prompt_template_strict then (false, missingRefs)
    else (true, missingRefs)

/-- `Validator.validate_input_data` (`validator.py` lines 75-123). The
interactive confirmation `input("\n是否继续执行? (y/n): ")` is modelled by
`userResponse`: `none` is `EOFError`/`KeyboardInterrupt` (decline), `some r`
is the typed line, accepted iff `r.strip().lower() == "y"`. -/
def validate_input_data (cfg : ValidationConfig) (agentConfig : AgentConfig)
    (inputData : List (String × Value)) (userResponse : Option String) :
    Bool × List String :=
  if !cfg.input_validation then (true, [])
  else if agentConfig.inputs.isEmpty then (true, [])
  else
    let provided := inputData.map (·.1)
    let missingFields := setDiff agentConfig.inputs provided
    if missingFields.isEmpty then (true, missingFields)
    else if cfg.input_strict then (false, missingFields)
    else
      match userResponse with
      | none => (false, missingFields)
      | some r =>
        if pyLower (pyStrip r) == "y" then (true, missingFields)
        else (false, missingFields)

/-- The argument of `Validator._parse_output`: the model response is a string;
a dict can also be passed directly (`validator.py` line 191). -/
inductive OutputData where
  | str (s : String)
  | val (v : Value)

/-- `Validator._parse_output` (`validator.py` lines 181-216), with Python's
`json.loads` modelled by `jsonLoads` (`none` = `JSONDecodeError`) and the
fenced-block extraction `re.findall(r'```(?:json)?\s*\n(.*?)\n```', s,
re.DOTALL)` modelled by `extractFenced` (first captured group, if any).
A successful direct parse that is not a dict falls through to the fenced
path, exactly as the source's `if isinstance(parsed, dict)` guards do. -/
def parseOutput (jsonLoads : String → Option Value) (extractFenced : String → Option String) :
    OutputData → Option (List (String × Value))
  | .val (.obj kvs) => some kvs
  | .val _ => none
  | .str s =>
    match jsonLoads s with
    | some (.obj kvs) => some kvs
    | _ =>
      match extractFenced s with
      | none => none
      | some inner =>
        match jsonLoads inner with
        | some (.obj kvs) => some kvs
        | _ => none

/-- `Validator.validate_output_data` (`validator.py` lines 125-179). -/
def validate_output_data (jsonLoads : String → Option Value)
    (extractFenced : String → Option String) (cfg : ValidationConfig)
    (agentConfig : AgentConfig) (outputData : OutputData) :
    Bool × List String × Option (List (String × Value)) :=
  if !cfg.output_validation then (true, [], parseOutput jsonLoads extractFenced outputData)
  else if agentConfig.outputs.isEmpty then
    (true, [], parseOutput jsonLoads extractFenced outputData)
  else
    match parseOutput jsonLoads extractFenced outputData with
    | none =>
      if cfg.output_strict then (false, agentConfig.outputs, none)
      else (true, agentConfig.outputs, none)
    | some kvs =>
      let provided := kvs.map (·.1)
      let missingFields := setDiff agentConfig.outputs provided
      if missingFields.isEmpty then (true, missingFields, some kvs)
      else if cfg.output_strict then (false, missingFields, some kvs)
      else
        let filled :=
          if cfg.output_fill_missing then kvs ++ missingFields.map (fun f => (f, Value.null))
          else kvs
        (true, missingFields, some filled)

/-- Error value surfaced in results: Python exception class name and
`str(e)` message, as stored by `agent.py` lines 312-315. -/
structure Err where
  type : String
  message : String
deriving Repr, DecidableEq

/-- The configuration state `ModelClient.__init__` stores
(`model_client.py` lines 18-35). The model binding itself is not consulted
by the retry logic and is omitted. `retry_delay` is a Python float, modelled
as a rational. -/
structure ModelClient where
  max_retries : Nat
  retry_delay : Rat
  timeout : Nat

/-- Models tenacity's retry loop under `reraise=True`: attempts are numbered
from 1; `remaining` counts the further attempts allowed after the current
one. A successful attempt returns immediately; when no attempts remain, the
outcome of the final attempt — in particular its error, unchanged — is the
result. -/
def retryGo (f : Nat → Except ε α) (attempt : Nat) : Nat → Except ε α
  | 0 => f attempt
  | n + 1 =>
    match f attempt with
    | .ok a => .ok a
    | .error _ => retryGo f (attempt + 1) n

/-- Models `@retry(stop=stop_after_attempt(maxAttempts), ..., reraise=True)`
applied to a call whose outcome on attempt `n` is `f n`. -/
def tenacityRetry (maxAttempts : Nat) (f : Nat → Except ε α) : Except ε α :=
  retryGo f 1 (maxAttempts - 1)

/-- Models tenacity's `wait_exponential(multiplier, min, max)`: the delay
before the retry following failed attempt `attemptNumber`, i.e.
`max(max(0, min), min(multiplier * 2 ** attemptNumber, max))`. -/
def waitExponential (multiplier mn mx : Rat) (attemptNumber : Nat) : Rat :=
  max (max 0 mn) (min (multiplier * 2 ^ attemptNumber) mx)

/-- `ModelClient._call_api` (`model_client.py` lines 49-87) as decorated by
`@retry(stop=stop_after_attempt(3), wait=wait_exponential(multiplier=1,
min=2, max=10), reraise=True)`. The attempt bound is the literal constant 3
from the decorator; the client's stored `max_retries` and `retry_delay`
fields are not read anywhere in this method. The inner
`except Exception: logger.error(...); raise` re-raises unchanged, so each
attempt's outcome is exactly `f n`. -/
def ModelClient.callApi (_c : ModelClient) (f : Nat → Except ε α) : Except ε α :=
  tenacityRetry 3 f

/-- The sequence of backoff delays the decorated `_call_api` sleeps between
attempts, in order (one entry per failed attempt that is followed by a
retry). The wait parameters are the decorator's literal constants. -/
def retryWaits (f : Nat → Except ε α) (attempt : Nat) : Nat → List Rat
  | 0 => []
  | n + 1 =>
    match f attempt with
    | .ok _ => []
    | .error _ => waitExponential 1 2 10 attempt :: retryWaits f (attempt + 1) n

/-- Backoff delays applied by `ModelClient._call_api` for call behaviour
`f`; like the attempt bound, they come from the decorator constants and are
independent of the stored configuration. -/
def ModelClient.callApiWaits (_c : ModelClient) (f : Nat → Except ε α) : List Rat :=
  retryWaits f 1 (3 - 1)

/-- The configuration state `ImageProcessor.__init__` stores
(`image_processor.py` lines 31-53) that the resize logic consults. -/
structure ImageProcessor where
  max_size : Nat
  quality : Nat
  resize : Bool
  cache_enabled : Bool
  cache_ttl : Nat
deriving Repr, DecidableEq

/-- Pixel dimensions of an image. -/
structure ImgSize where
  width : Nat
  height : Nat
deriving Repr, DecidableEq

/-- `ImageProcessor.resize_image` (`image_processor.py` lines 215-243) on
the dimension level. Python computes `int(height * (max_size / width))` with
float division and truncation; on the integer inputs involved this is exact
rational arithmetic truncated toward zero, modelled by Nat floor division. -/
def ImageProcessor.resize_image (p : ImageProcessor) (sz : ImgSize) : ImgSize :=
  if p.resize = false then sz
  else if sz.width ≤ p.max_size ∧ sz.height ≤ p.max_size then sz
  else if sz.height < sz.width then
    { width := p.max_size, height := sz.height * p.max_size / sz.width }
  else
    { width := sz.width * p.max_size / sz.height, height := p.max_size }

/-- OpenAI Vision attachment descriptor
`{"type": "image_url", "image_url": {"url": ...}}` built by
`ImageProcessor.process_images` (`image_processor.py` lines 461-464). -/
structure Attachment where
  type : String := "image_url"
  url : String
deriving Repr, DecidableEq

/-- `ImageProcessor.process_images` (`image_processor.py` lines 435-471).
The per-image resolution `process_image` performs filesystem and network
I/O; its observable outcome per reference is the oracle `processOne`
(`.error e` = the exception it raises). The loop appends descriptors in
input order and re-raises the first per-image failure, abandoning the
partial batch. -/
def process_images (processOne : String → Except Err String) :
    List String → Except Err (List Attachment)
  | [] => .ok []
  | img :: rest =>
    match processOne img with
    | .error e => .error e
    | .ok payload =>
      match process_images processOne rest with
      | .error e => .error e
      | .ok tail => .ok ({ url := payload } :: tail)

/-- The result record assembled by `Agent.run` (`agent.py` lines 225-322).
The Python dict with dynamic keys is modelled as a record whose optional
keys are `Option` fields; `validation` sub-keys are flattened. The fallback
`outputs = {"raw_response": response}` is represented through the same
`outputs` field. -/
structure RunResult where
  agent : String
  timestamp : String
  inputs : List (String × Value)
  status : String
  validation_missing_input_fields : Option (List String) := none
  validation_missing_output_fields : Option (List String) := none
  outputs : Option (List (String × Value)) := none
  saved_images : Option (List String) := none
  error : Option Err := none
  execution_time : Nat

/-- Everything `Agent.run` reads: configuration, template texts, the run
request, and the observable behaviour of the effectful collaborators
(operator confirmation, per-image processing, the model endpoint, JSON
decoding, fenced-block extraction, original-image saving, the wall clock). -/
structure RunEnv where
  name : String
  agentConfig : AgentConfig
  promptSystem : String
  promptUser : String
  vcfg : ValidationConfig
  inputData : List (String × Value)
  images : List String
  saveImages : Bool
  userResponse : Option String
  processOne : String → Except Err String
  modelCall : String → String → List Attachment → Except Err String
  jsonLoads : String → Option Value
  extractFenced : String → Option String
  saveResult : Except Err (List String)
  timestamp : String
  executionTime : Nat

/-- The single outer failure boundary of `Agent.run` (lines 309-315): the
partial result assembled so far gets `status = "error"` and the classified
exception; the `finally` block's `execution_time` is already present. -/
def errResult (r : RunResult) (e : Err) : RunResult :=
  { r with status := "error", error := some e }

/-- Steps 4-6 of `Agent.run` (lines 279-307): render both templates, call
the model, validate the output. The first component of
`validate_output_data`'s result — the strict-failure flag — is discarded,
exactly as the source's tuple unpacking on line 293 never consults `valid`
afterwards. -/
def runFromRender (env : RunEnv) (r : RunResult) (atts : List Attachment) : RunResult :=
  let systemPrompt := renderPrompt env.promptSystem env.inputData
  let userPrompt := if env.promptUser.isEmpty then "" else renderPrompt env.promptUser env.inputData
  match env.modelCall systemPrompt userPrompt atts with
  | .error e => errResult r e
  | .ok response =>
    match validate_output_data env.jsonLoads env.extractFenced env.vcfg env.agentConfig
        (.str response) with
    | (_valid, missingOutputFields, parsedOutput) =>
      let r2 :=
        match parsedOutput with
        | some p => { r with outputs := some p }
        | none => { r with outputs := some [("raw_response", Value.str response)] }
      if missingOutputFields.isEmpty then r2
      else
        { r2 with
          validation_missing_output_fields := some missingOutputFields,
          status := "partial_success" }

/-- Step 3 of `Agent.run` (lines 257-277): process the images (the
`download_url` flag passed to `process_images` is `cache_enabled`, already
reflected in the `processOne` oracle) and echo the image list into the
result's inputs; optionally save originals (`_save_original_images` may
itself raise, e.g. from `mkdir`, which the outer boundary then catches with
the echoed inputs already recorded). -/
def runStep3 (env : RunEnv) (r : RunResult) : RunResult :=
  if env.images.isEmpty then runFromRender env r []
  else
    match process_images env.processOne env.images with
    | .error e => errResult r e
    | .ok atts =>
      let r2 := { r with inputs := dictSet r.inputs "images" (.arr (env.images.map .str)) }
      if env.saveImages then
        match env.saveResult with
        | .error e => errResult r2 e
        | .ok paths => runFromRender env { r2 with saved_images := some paths } atts
      else runFromRender env r2 atts

/-- `Agent.run` (`agent.py` lines 208-322). The result starts as
`{agent, timestamp, inputs, status: "success"}`; the two leading validation
gates raise `ValueError` (caught by the single outer boundary) when they
report failure; a non-empty missing-input set from a passing input gate is
recorded under `validation.missing_input_fields`. Every path ends with the
`finally` block's `execution_time`, modelled as the field being present from
the start and never removed. -/
def Agent.run (env : RunEnv) : RunResult :=
  let r0 : RunResult :=
    { agent := env.name
      timestamp := env.timestamp
      inputs := env.inputData
      status := "success"
      execution_time := env.executionTime }
  match validate_prompt_templates env.vcfg env.agentConfig env.promptSystem env.promptUser with
  | (false, missingRefs) =>
    errResult r0 ⟨"ValueError", "Prompt 模板验证失败，未引用字段: " ++ toString missingRefs⟩
  | (true, _) =>
    match validate_input_data env.vcfg env.agentConfig env.inputData env.userResponse with
    | (false, missingFields) =>
      errResult r0 ⟨"ValueError", "输入数据验证失败，缺少字段: " ++ toString missingFields⟩
    | (true, missingFields) =>
      let r1 :=
        if missingFields.isEmpty then r0
        else { r0 with validation_missing_input_fields := some missingFields }
      runStep3 env r1

/-- A concrete run in which the input-completeness gate (enabled,
non-strict) finds the non-empty missing set `["a"]` and the operator
answers `y`; every other gate is disabled and the model call succeeds. -/
def envInputWarn : RunEnv where
  name := "agent"
  agentConfig := ⟨"llm", ["a"], []⟩
  promptSystem := "s"
  promptUser := ""
  vcfg := ⟨false, false, true, false, false, false, true⟩
  inputData := []
  images := []
  saveImages := false
  userResponse := some "y"
  processOne := fun _ => .error ⟨"RuntimeError", "unused"⟩
  modelCall := fun _ _ _ => .ok "hi"
  jsonLoads := fun _ => none
  extractFenced := fun _ => none
  saveResult := .ok []
  timestamp := "t"
  executionTime := 7

/-- A concrete run in which the template-completeness gate (enabled,
non-strict) finds the non-empty unreferenced set `["a"]` — the system
template `"hello"` references nothing; every other gate is disabled and the
model call succeeds. -/
def envTemplateWarn : RunEnv where
  name := "agent"
  agentConfig := ⟨"llm", ["a"], []⟩
  promptSystem := "hello"
  promptUser := ""
  vcfg := ⟨true, false, false, false, false, false, true⟩
  inputData := [("a", .str "v")]
  images := []
  saveImages := false
  userResponse := none
  processOne := fun _ => .error ⟨"RuntimeError", "unused"⟩
  modelCall := fun _ _ _ => .ok "hi"
  jsonLoads := fun _ => none
  extractFenced := fun _ => none
  saveResult := .ok []
  timestamp := "t"
  executionTime := 7

/-- A concrete run with declared output field `b`, output validation
enabled and strict, whose model response `"R"` parses to the record
`{"a": "x"}` — missing `b`. -/
def envOutputStrict : RunEnv where
  name := "agent"
  agentConfig := ⟨"llm", [], ["b"]⟩
  promptSystem := "s"
  promptUser := ""
  vcfg := ⟨false, false, false, false, true, true, true⟩
  inputData := []
  images := []
  saveImages := false
  userResponse := none
  processOne := fun _ => .error ⟨"RuntimeError", "unused"⟩
  modelCall := fun _ _ _ => .ok "R"
  jsonLoads := fun s => if s == "R" then some (.obj [("a", .str "x")]) else none
  extractFenced := fun _ => none
  saveResult := .ok []
  timestamp := "t"
  executionTime := 7

/-- The same run as `envOutputStrict` with output validation non-strict and
fill-missing enabled. -/
def envOutputNonstrict : RunEnv where
  name := "agent"
  agentConfig := ⟨"llm", [], ["b"]⟩
  promptSystem := "s"
  promptUser := ""
  vcfg := ⟨false, false, false, false, true, false, true⟩
  inputData := []
  images := []
  saveImages := false
  userResponse := none
  processOne := fun _ => .error ⟨"RuntimeError", "unused"⟩
  modelCall := fun _ _ _ => .ok "R"
  jsonLoads := fun s => if s == "R" then some (.obj [("a", .str "x")]) else none
  extractFenced := fun _ => none
  saveResult := .ok []
  timestamp := "t"
  executionTime := 7

/-- Rounding bound for a truncated quotient: `(a / b) * b` is below `a` by
less than `b`. -/
theorem div_mul_sub_natAbs (a b : ℕ) (hb : 0 < b) :
    (((a / b : ℕ) : ℤ) * b - (a : ℤ)).natAbs < b := by
  have key := Nat.div_add_mod a b
  have hmod := Nat.mod_lt a hb
  have keyZ : (b : ℤ) * ((a / b : ℕ) : ℤ) + ((a % b : ℕ) : ℤ) = (a : ℤ) := by
    exact_mod_cast key
  have e1 : ((a / b : ℕ) : ℤ) * b - (a : ℤ) = -((a % b : ℕ) : ℤ) := by
    linarith [keyZ, mul_comm ((a / b : ℕ) : ℤ) (b : ℤ)]
  rw [e1, Int.natAbs_neg, Int.natAbs_ofNat]
  exact hmod

/-- C9: with resizing enabled, an image already within the configured
maximum keeps its dimensions; an image exceeding it in either direction is
scaled so that its longer edge (indeed both edges) is at most the maximum,
with the aspect ratio preserved up to integer rounding (the cross products
of the old and new dimensions differ by less than one rounding unit). -/
theorem resize_image_bounds (p : ImageProcessor) (sz : ImgSize)
    (hres : p.resize = true) (hw : 0 < sz.width) (hh : 0 < sz.height) :
    (sz.width ≤ p.max_size ∧ sz.height ≤ p.max_size → p.resize_image sz = sz) ∧
    (p.max_size < sz.width ∨ p.max_size < sz.height →
      max (p.resize_image sz).width (p.resize_image sz).height ≤ p.max_size ∧
      (((p.resize_image sz).height : ℤ) * sz.width
          - (sz.height : ℤ) * (p.resize_image sz).width).natAbs
        < max sz.width sz.height) := by
  constructor
  · intro hin
    simp [ImageProcessor.resize_image, hres, hin]
  · intro hover
    have hcond : ¬(sz.width ≤ p.max_size ∧ sz.height ≤ p.max_size) := by
      rcases hover with h | h <;> omega
    rw [ImageProcessor.resize_image, if_neg (by simp [hres]), if_neg hcond]
    by_cases hlt : sz.height < sz.width
    · rw [if_pos hlt]
      dsimp only
      refine ⟨?_, ?_⟩
      · have hle : sz.height * p.max_size ≤ sz.width * p.max_size :=
          Nat.mul_le_mul_right _ (le_of_lt hlt)
        have hdiv : sz.height * p.max_size / sz.width ≤ p.max_size := by
          have h2 := Nat.div_le_div_right (c := sz.width) hle
          rwa [Nat.mul_div_cancel_left _ hw] at h2
        simp [hdiv]
      · have hb := div_mul_sub_natAbs (sz.height * p.max_size) sz.width hw
        have hcast : ((sz.height * p.max_size : ℕ) : ℤ) = (sz.height : ℤ) * p.max_size := by
          push_cast; ring
        rw [hcast] at hb
        exact lt_of_lt_of_le hb (le_max_left _ _)
    · rw [if_neg hlt]
      dsimp only
      have hwh : sz.width ≤ sz.height := le_of_not_lt hlt
      refine ⟨?_, ?_⟩
      · have hle : sz.width * p.max_size ≤ sz.height * p.max_size :=
          Nat.mul_le_mul_right _ hwh
        have hdiv : sz.width * p.max_size / sz.height ≤ p.max_size := by
          have h2 := Nat.div_le_div_right (c := sz.height) hle
          rwa [Nat.mul_div_cancel_left _ hh] at h2
        simp [hdiv]
      · have hb := div_mul_sub_natAbs (sz.width * p.max_size) sz.height hh
        have hcast : ((sz.width * p.max_size : ℕ) : ℤ) = (sz.width : ℤ) * p.max_size := by
          push_cast; ring
        rw [hcast] at hb
        have flip : ((p.max_size : ℤ) * sz.width
            - (sz.height : ℤ) * (sz.width * p.max_size / sz.height : ℕ)).natAbs
            = (((sz.width * p.max_size / sz.height : ℕ) : ℤ) * sz.height
              - (sz.width : ℤ) * p.max_size).natAbs := by
          rw [← Int.natAbs_neg]
          ring_nf
        rw [flip]
        exact lt_of_lt_of_le hb (le_max_right _ _)

/-- C9 witness: a 4000×3000 image with configured maximum 1024 is resized
to 1024×768 — longer edge at most 1024, 4:3 ratio preserved exactly. -/
theorem resize_image_bounds_witness :
    ((⟨1024, 85, true, false, 86400⟩ : ImageProcessor).resize = true ∧
      0 < 4000 ∧ 0 < 3000 ∧ (1024 < 4000 ∨ 1024 < 3000)) ∧
    (max ((⟨1024, 85, true, false, 86400⟩ : ImageProcessor).resize_image
        ⟨4000, 3000⟩).width ((⟨1024, 85, true, false, 86400⟩ :
        ImageProcessor).resize_image ⟨4000, 3000⟩).height ≤ 1024) ∧
    (⟨1024, 85, true, false, 86400⟩ : ImageProcessor).resize_image ⟨4000, 3000⟩
      = ⟨1024, 768⟩ :=
  ⟨⟨rfl, by decide, by decide, by decide⟩,
    ((resize_image_bounds ⟨1024, 85, true, false, 86400⟩ ⟨4000, 3000⟩ rfl
      (by decide) (by decide)).2 (by decide)).1,
    by decide⟩

/-- C3: the retry policy `_call_api` actually applies is the decorator's
hard-coded one. A client constructed with `max_retries = 5` and
`retry_delay = 1/2` still stops after exactly 3 attempts (the re-raised
error is attempt 3's, not attempt 5's), sleeps the hard-coded 2s and 4s
backoffs, and in general both the call outcome and the applied delays are
identical for any two configurations. -/
theorem call_api_ignores_caller_config :
    (ModelClient.callApi ⟨5, (1 : ℚ)/2, 120⟩
        (fun n => (.error ⟨"APIError", toString n⟩ : Except Err String))
      = .error ⟨"APIError", "3"⟩) ∧
    (ModelClient.callApiWaits ⟨5, (1 : ℚ)/2, 120⟩
        (fun n => (.error ⟨"APIError", toString n⟩ : Except Err String))
      = [2, 4]) ∧
    (∀ (c c' : ModelClient) (g : ℕ → Except Err String),
      ModelClient.callApi c g = ModelClient.callApi c' g ∧
      ModelClient.callApiWaits c g = ModelClient.callApiWaits c' g) := by
  refine ⟨rfl, ?_, fun c c' g => ⟨rfl, rfl⟩⟩
  have w1 : waitExponential 1 2 10 1 = 2 := by norm_num [waitExponential]
  have w2 : waitExponential 1 2 10 2 = 4 := by norm_num [waitExponential]
  have hlist : ModelClient.callApiWaits (⟨5, (1 : ℚ)/2, 120⟩ : ModelClient)
      (fun n => (.error ⟨"APIError", toString n⟩ : Except Err String))
      = [waitExponential 1 2 10 1, waitExponential 1 2 10 2] := rfl
  rw [hlist, w1, w2]

/-- C7: behaviour of the retried `_call_api` under `reraise=True`: if the
first attempts fail and a later permitted attempt succeeds, the successful
response is returned; if all three permitted attempts fail, the error of the
last attempt is re-raised unchanged. -/
theorem call_api_retry_behaviour (c : ModelClient) (f : ℕ → Except Err String)
    (e1 e2 e3 : Err) (a : String) :
    ((f 1 = .error e1 ∧ f 2 = .error e2 ∧ f 3 = .error e3) →
      c.callApi f = .error e3) ∧
    ((f 1 = .error e1 ∧ f 2 = .error e2 ∧ f 3 = .ok a) → c.callApi f = .ok a) ∧
    ((f 1 = .error e1 ∧ f 2 = .ok a) → c.callApi f = .ok a) ∧
    (f 1 = .ok a → c.callApi f = .ok a) := by
  have egoS : ∀ (attempt n : ℕ), retryGo f attempt (n + 1)
      = (match f attempt with
          | .ok x => .ok x
          | .error _ => retryGo f (attempt + 1) n) := fun a _ => by
    simp only [retryGo]
    cases f a <;> rfl
  have ego0 : ∀ attempt : ℕ, retryGo f attempt 0 = f attempt := fun _ => rfl
  have e : c.callApi f =
      (match f 1 with
        | .ok x => .ok x
        | .error _ =>
          match f 2 with
          | .ok x => .ok x
          | .error _ => f 3) := by
    show retryGo f 1 (3 - 1) = _
    rw [show (3 : ℕ) - 1 = 1 + 1 from rfl, egoS 1 1]
    cases f 1 with
    | ok x => rfl
    | error e1 =>
      dsimp only
      rw [show (1 : ℕ) = 0 + 1 from rfl]
      rw [egoS 2 0]
      cases f 2 with
      | ok x => rfl
      | error e2 => exact ego0 3
  refine ⟨?_, ?_, ?_, ?_⟩
  · rintro ⟨h1, h2, h3⟩; rw [e, h1, h2, h3]
  · rintro ⟨h1, h2, h3⟩; rw [e, h1, h2, h3]
  · rintro ⟨h1, h2⟩; rw [e, h1, h2]
  · intro h1; rw [e, h1]

/-- C7 witness: a client that fails twice then succeeds returns the
successful response; one that fails on all three attempts re-raises the
last error unchanged. -/
theorem call_api_retry_behaviour_witness :
    (ModelClient.callApi ⟨3, 2, 60⟩
        (fun n => if n == 3 then (.ok "resp" : Except Err String)
          else .error ⟨"E", toString n⟩) = .ok "resp") ∧
    (ModelClient.callApi ⟨3, 2, 60⟩
        (fun n => (.error ⟨"E", toString n⟩ : Except Err String))
      = .error ⟨"E", "3"⟩) :=
  ⟨(call_api_retry_behaviour ⟨3, 2, 60⟩ _ ⟨"E", "1"⟩ ⟨"E", "2"⟩ ⟨"E", "3"⟩
      "resp").2.1 ⟨rfl, rfl, rfl⟩,
    (call_api_retry_behaviour ⟨3, 2, 60⟩ _ ⟨"E", "1"⟩ ⟨"E", "2"⟩ ⟨"E", "3"⟩
      "resp").1 ⟨rfl, rfl, rfl⟩⟩

/-- C5: with output validation enabled, strict mode set, and a non-empty
declared output set, an unparsable response (direct parse and fenced-block
extraction both fail, i.e. `_parse_output` returns nothing) makes output
validation fail with exactly the entire declared output list reported as
missing, and no parsed structure. -/
theorem validate_output_unparsable_strict (jsonLoads : String → Option Value)
    (extractFenced : String → Option String) (cfg : ValidationConfig)
    (agentConfig : AgentConfig) (outputData : OutputData)
    (hval : cfg.output_validation = true) (hstrict : cfg.output_strict = true)
    (hout : agentConfig.outputs.isEmpty = false)
    (hparse : parseOutput jsonLoads extractFenced outputData = none) :
    validate_output_data jsonLoads extractFenced cfg agentConfig outputData
      = (false, agentConfig.outputs, none) := by
  rw [validate_output_data, hparse]
  simp [hval, hstrict, hout]

/-- C5 witness: an agent declaring outputs `a, b` in strict mode, given the
response `"not json"` that no decoder accepts, fails with missing list
exactly `[a, b]`. -/
theorem validate_output_unparsable_strict_witness :
    validate_output_data (fun _ => none) (fun _ => none)
      ⟨true, false, true, false, true, true, true⟩ ⟨"llm", [], ["a", "b"]⟩
      (.str "not json") = (false, ["a", "b"], none) :=
  validate_output_unparsable_strict _ _ _ _ _ rfl rfl rfl rfl

/-- Helper for C8: when every reference resolves, the batch is the ordered
list of attachment descriptors, one per input reference, in input order. -/
theorem process_images_all_ok (processOne : String → Except Err String)
    (g : String → String) :
    ∀ l : List String, (∀ i ∈ l, processOne i = .ok (g i)) →
      process_images processOne l = .ok (l.map fun i => { url := g i }) := by
  intro l
  induction l with
  | nil => intro _; rfl
  | cons x xs ih =>
    intro h
    have hx := h x (by simp)
    have hrest := ih (fun i hi => h i (by simp [hi]))
    simp [process_images, hx, hrest]

/-- Helper for C8: the first failing reference aborts the batch and its
error propagates unchanged, regardless of what follows it. -/
theorem process_images_first_error (processOne : String → Except Err String)
    (g : String → String) (img : String) (e : Err) (post : List String)
    (he : processOne img = .error e) :
    ∀ pre : List String, (∀ i ∈ pre, processOne i = .ok (g i)) →
      process_images processOne (pre ++ img :: post) = .error e := by
  intro pre
  induction pre with
  | nil =>
    intro _
    simp [process_images, he]
  | cons x xs ih =>
    intro h
    have hx := h x (by simp)
    have hrest := ih (fun i hi => h i (by simp [hi]))
    simp [process_images, hx, hrest]

/-- C8: `process_images` preserves input order — on an all-successful batch
it returns one descriptor per reference in the same order — and the first
per-image failure aborts the whole batch with the underlying error
propagated unchanged (no partial batch is returned). -/
theorem process_images_batch_contract (processOne : String → Except Err String)
    (g : String → String) (pre post : List String) (img : String) (e : Err) :
    ((∀ i ∈ pre ++ img :: post, processOne i = .ok (g i)) →
      process_images processOne (pre ++ img :: post)
        = .ok ((pre ++ img :: post).map fun i => { url := g i })) ∧
    ((∀ i ∈ pre, processOne i = .ok (g i)) → processOne img = .error e →
      process_images processOne (pre ++ img :: post) = .error e) :=
  ⟨process_images_all_ok processOne g _,
    fun hpre he => process_images_first_error processOne g img e post he pre hpre⟩

/-- C8 witness: a two-reference batch resolves in order; inserting a failing
reference in the middle aborts the batch with that error even though a later
reference would succeed. -/
theorem process_images_batch_contract_witness :
    (process_images
        (fun s => if s == "bad" then .error ⟨"FileNotFoundError", "missing"⟩
          else .ok ("data:" ++ s)) ["a", "b"]
      = .ok [{ url := "data:a" }, { url := "data:b" }]) ∧
    (process_images
        (fun s => if s == "bad" then .error ⟨"FileNotFoundError", "missing"⟩
          else .ok ("data:" ++ s)) ["a", "bad", "c"]
      = .error ⟨"FileNotFoundError", "missing"⟩) :=
  ⟨(process_images_batch_contract _ (fun s => "data:" ++ s) ["a"] [] "b"
      ⟨"FileNotFoundError", "missing"⟩).1
      (by intro i hi; fin_cases hi <;> rfl),
    (process_images_batch_contract _ (fun s => "data:" ++ s) ["a"] ["c"] "bad"
      ⟨"FileNotFoundError", "missing"⟩).2
      (by intro i hi; fin_cases hi; rfl) rfl⟩

/-- A successful placeholder match captures a non-empty run of word
characters: the captured list is a non-empty `takeWhile isWordChar`. -/
theorem tryMatch_sound {cs word after : List Char}
    (h : tryMatch cs = some (word, after)) :
    word ≠ [] ∧ word.all isWordChar = true := by
  rcases cs with _ | ⟨c1, _ | ⟨c2, t⟩⟩
  · simp [tryMatch] at h
  · simp [tryMatch] at h
  · simp only [tryMatch] at h
    split at h
    · split at h
      · exact absurd h (by simp)
      · split at h
        · split at h
          · rw [Option.some.injEq, Prod.mk.injEq] at h
            refine ⟨?_, ?_⟩
            · rw [← h.1]
              intro hempty
              simp [hempty] at *
            · rw [← h.1]
              exact List.all_takeWhile
          · exact absurd h (by simp)
        · exact absurd h (by simp)
    · exact absurd h (by simp)

/-- Every field name the scanner emits is a non-empty run of word
characters. -/
theorem fieldsOf_scanAux_wordlike (fuel : ℕ) : ∀ cs : List Char,
    ((fieldsOf (scanAux fuel cs)).all
      fun n => !n.toList.isEmpty && n.toList.all isWordChar) = true := by
  induction fuel with
  | zero => intro cs; rfl
  | succ k ih =>
    intro cs
    cases cs with
    | nil => rfl
    | cons c rest =>
      rw [scanAux]
      cases htm : tryMatch (c :: rest) with
      | none =>
        dsimp only
        simpa [fieldsOf] using ih rest
      | some pr =>
        obtain ⟨word, after⟩ := pr
        obtain ⟨hne, hall⟩ := tryMatch_sound htm
        dsimp only
        rw [fieldsOf, List.filterMap_cons]
        dsimp only
        rw [List.all_cons]
        have h1 : (String.mk word).toList = word := rfl
        have h2 : (!(String.mk word).toList.isEmpty
            && (String.mk word).toList.all isWordChar) = true := by
          rw [h1, hall, List.isEmpty_eq_false.mpr hne]
          rfl
        rw [h2, Bool.true_and]
        exact ih after

/-- C10: the pipeline recognizes only placeholders of the exact form
`\x7b\x7bname\x7d\x7d` with `name` a non-empty run of word characters.
Every field name that either the renderer substitutes or the template gate
counts as referenced is such a run; a would-be placeholder containing a
hyphen or spaces is left verbatim by rendering under every input mapping and
contributes nothing to the referenced-field list, while a well-formed
placeholder is recognized and substituted. -/
theorem placeholders_exact_form_only :
    (∀ t : String, ((findallFields t).all
      fun n => !n.toList.isEmpty && n.toList.all isWordChar) = true) ∧
    (∀ m : List (String × Value),
      renderPrompt "pre \x7b\x7bfield-name\x7d\x7d mid \x7b\x7b name \x7d\x7d post" m
        = "pre \x7b\x7bfield-name\x7d\x7d mid \x7b\x7b name \x7d\x7d post") ∧
    (findallFields "pre \x7b\x7bfield-name\x7d\x7d mid \x7b\x7b name \x7d\x7d post" = []) ∧
    (findallFields "\x7b\x7bname\x7d\x7d" = ["name"]) ∧
    (renderPrompt "\x7b\x7bname\x7d\x7d" [("name", .str "v")] = "v") :=
  ⟨fun _ => fieldsOf_scanAux_wordlike _ _, fun _ => rfl, rfl, rfl, rfl⟩

/-- The non-strict template gate always reports success (its findings are
warnings only). -/
theorem validate_prompt_templates_nonstrict (cfg : ValidationConfig)
    (agentConfig : AgentConfig) (systemPrompt userPrompt : String)
    (hns : cfg.prompt_template_strict = false) :
    (validate_prompt_templates cfg agentConfig systemPrompt userPrompt).1 = true := by
  rw [validate_prompt_templates]
  split
  · rfl
  · split
    · rfl
    · rw [hns]
      simp

/-- Steps 4-6 of the run produce one of three shapes: the outer failure
boundary applied to the incoming record, the record with outputs attached,
or the record with outputs, a non-empty missing-output annotation, and
status downgraded to partial success. -/
theorem runFromRender_cases (env : RunEnv) (r : RunResult) (atts : List Attachment) :
    (∃ e, runFromRender env r atts = errResult r e) ∨
    (∃ outs, runFromRender env r atts = { r with outputs := some outs }) ∨
    (∃ outs mo, mo.isEmpty = false ∧ runFromRender env r atts =
      { r with outputs := some outs,
               validation_missing_output_fields := some mo,
               status := "partial_success" }) := by
  rw [runFromRender]
  cases hmc : env.modelCall (renderPrompt env.promptSystem env.inputData)
      (if env.promptUser.isEmpty then ""
        else renderPrompt env.promptUser env.inputData) atts with
  | error e => exact Or.inl ⟨e, rfl⟩
  | ok response =>
    dsimp only
    rcases hvod : validate_output_data env.jsonLoads env.extractFenced env.vcfg
        env.agentConfig (.str response) with ⟨v, mo, po⟩
    dsimp only
    cases po with
    | none =>
      cases hmo : mo.isEmpty with
      | true =>
        rw [if_pos rfl]
        exact Or.inr (Or.inl ⟨_, rfl⟩)
      | false =>
        rw [if_neg (by simp)]
        exact Or.inr (Or.inr ⟨_, mo, hmo, rfl⟩)
    | some p =>
      cases hmo : mo.isEmpty with
      | true =>
        rw [if_pos rfl]
        exact Or.inr (Or.inl ⟨_, rfl⟩)
      | false =>
        rw [if_neg (by simp)]
        exact Or.inr (Or.inr ⟨_, mo, hmo, rfl⟩)

/-- Step 3 either hits the failure boundary or hands a record to steps 4-6;
in both cases the record passed on agrees with the incoming one on status,
error, both validation annotations, and execution time. -/
theorem runStep3_cases (env : RunEnv) (r : RunResult) :
    (∃ r' e, runStep3 env r = errResult r' e ∧
      r'.status = r.status ∧ r'.error = r.error ∧
      r'.validation_missing_input_fields = r.validation_missing_input_fields ∧
      r'.validation_missing_output_fields = r.validation_missing_output_fields ∧
      r'.execution_time = r.execution_time) ∨
    (∃ atts r', runStep3 env r = runFromRender env r' atts ∧
      r'.status = r.status ∧ r'.error = r.error ∧
      r'.validation_missing_input_fields = r.validation_missing_input_fields ∧
      r'.validation_missing_output_fields = r.validation_missing_output_fields ∧
      r'.execution_time = r.execution_time) := by
  rw [runStep3]
  split
  · exact Or.inr ⟨[], r, rfl, rfl, rfl, rfl, rfl, rfl⟩
  · cases hpi : process_images env.processOne env.images with
    | error e => exact Or.inl ⟨r, e, rfl, rfl, rfl, rfl, rfl, rfl⟩
    | ok atts =>
      dsimp only
      split
      · cases hsr : env.saveResult with
        | error e => exact Or.inl ⟨_, e, rfl, rfl, rfl, rfl, rfl, rfl⟩
        | ok paths => exact Or.inr ⟨atts, _, rfl, rfl, rfl, rfl, rfl, rfl⟩
      · exact Or.inr ⟨atts, _, rfl, rfl, rfl, rfl, rfl, rfl⟩

/-- Steps 4-6 leave the execution time and the missing-input annotation of
the incoming record untouched. -/
theorem runFromRender_pres (env : RunEnv) (r : RunResult) (atts : List Attachment) :
    (runFromRender env r atts).execution_time = r.execution_time ∧
    (runFromRender env r atts).validation_missing_input_fields
      = r.validation_missing_input_fields := by
  rcases runFromRender_cases env r atts with ⟨e, h⟩ | ⟨o, h⟩ | ⟨o, mo, hmo, h⟩ <;>
    rw [h] <;> exact ⟨rfl, rfl⟩

/-- Steps 4-6 either keep the incoming status or end in partial success or
error. -/
theorem runFromRender_status (env : RunEnv) (r : RunResult) (atts : List Attachment) :
    (runFromRender env r atts).status = r.status ∨
    (runFromRender env r atts).status = "partial_success" ∨
    (runFromRender env r atts).status = "error" := by
  rcases runFromRender_cases env r atts with ⟨e, h⟩ | ⟨o, h⟩ | ⟨o, mo, hmo, h⟩ <;> rw [h]
  · exact Or.inr (Or.inr rfl)
  · exact Or.inl rfl
  · exact Or.inr (Or.inl rfl)

/-- On a clean incoming record, steps 4-6 end with status success exactly
when no error was recorded and no missing-output annotation was attached. -/
theorem runFromRender_success_iff (env : RunEnv) (r : RunResult)
    (atts : List Attachment) (hs : r.status = "success") (he : r.error = none)
    (hv : r.validation_missing_output_fields = none) :
    ((runFromRender env r atts).status = "success" ↔
      (runFromRender env r atts).error = none ∧
      (runFromRender env r atts).validation_missing_output_fields = none) := by
  rcases runFromRender_cases env r atts with ⟨e, h⟩ | ⟨o, h⟩ | ⟨o, mo, hmo, h⟩ <;> rw [h]
  · constructor
    · intro hcon; exact absurd hcon (by simp [errResult])
    · rintro ⟨hc, _⟩; exact absurd hc (by simp [errResult])
  · constructor
    · intro _; exact ⟨he, hv⟩
    · intro _; exact hs
  · constructor
    · intro hcon; exact absurd hcon (by simp)
    · rintro ⟨_, hc⟩; exact absurd hc (by simp)

/-- Step 3 leaves the execution time and the missing-input annotation of
the incoming record untouched. -/
theorem runStep3_pres (env : RunEnv) (r : RunResult) :
    (runStep3 env r).execution_time = r.execution_time ∧
    (runStep3 env r).validation_missing_input_fields
      = r.validation_missing_input_fields := by
  rcases runStep3_cases env r with ⟨r', e, h, _, _, hvi, _, hex⟩ |
      ⟨atts, r', h, _, _, hvi, _, hex⟩ <;> rw [h]
  · exact ⟨hex, hvi⟩
  · obtain ⟨h1, h2⟩ := runFromRender_pres env r' atts
    exact ⟨h1.trans hex, h2.trans hvi⟩

/-- Step 3 onward either keeps the incoming status or ends in partial
success or error. -/
theorem runStep3_status (env : RunEnv) (r : RunResult) :
    (runStep3 env r).status = r.status ∨
    (runStep3 env r).status = "partial_success" ∨
    (runStep3 env r).status = "error" := by
  rcases runStep3_cases env r with ⟨r', e, h, hst, _⟩ |
      ⟨atts, r', h, hst, _⟩ <;> rw [h]
  · exact Or.inr (Or.inr rfl)
  · rcases runFromRender_status env r' atts with h1 | h1 | h1
    · exact Or.inl (h1.trans hst)
    · exact Or.inr (Or.inl h1)
    · exact Or.inr (Or.inr h1)

/-- On a clean incoming record, step 3 onward ends with status success
exactly when no error was recorded and no missing-output annotation was
attached. -/
theorem runStep3_success_iff (env : RunEnv) (r : RunResult)
    (hs : r.status = "success") (he : r.error = none)
    (hv : r.validation_missing_output_fields = none) :
    ((runStep3 env r).status = "success" ↔
      (runStep3 env r).error = none ∧
      (runStep3 env r).validation_missing_output_fields = none) := by
  rcases runStep3_cases env r with ⟨r', e, h, hst, herr, _, hvo, _⟩ |
      ⟨atts, r', h, hst, herr, _, hvo, _⟩ <;> rw [h]
  · constructor
    · intro hcon; exact absurd hcon (by simp [errResult])
    · rintro ⟨hc, _⟩; exact absurd hc (by simp [errResult])
  · exact runFromRender_success_iff env r' atts (hst.trans hs)
      (herr.trans he) (hvo.trans hv)

/-- C1: for every input mapping, image list, and behaviour of the inner
components — operator input, image processing, model call, JSON decoding,
saving, all of which may fail with arbitrary errors through the `RunEnv`
oracles — `Agent.run` is a total function into result records (it never
raises), and the record it returns always carries a terminal status drawn
from success, partial_success, or error, together with the measured
execution time, also on every exception path. -/
theorem agent_run_always_terminal (env : RunEnv) :
    ((Agent.run env).status = "success" ∨
      (Agent.run env).status = "partial_success" ∨
      (Agent.run env).status = "error") ∧
    (Agent.run env).execution_time = env.executionTime := by
  rw [Agent.run]
  rcases hpt : validate_prompt_templates env.vcfg env.agentConfig
      env.promptSystem env.promptUser with ⟨valid, missingRefs⟩
  cases valid
  · exact ⟨Or.inr (Or.inr rfl), rfl⟩
  · dsimp only
    rcases hin : validate_input_data env.vcfg env.agentConfig env.inputData
        env.userResponse with ⟨v2, mf⟩
    cases v2
    · exact ⟨Or.inr (Or.inr rfl), rfl⟩
    · dsimp only
      by_cases hmf : mf.isEmpty
      · rw [if_pos hmf]
        refine ⟨?_, (runStep3_pres env _).1⟩
        rcases runStep3_status env _ with h | h | h
        · exact Or.inl h
        · exact Or.inr (Or.inl h)
        · exact Or.inr (Or.inr h)
      · rw [if_neg hmf]
        refine ⟨?_, (runStep3_pres env _).1⟩
        rcases runStep3_status env _ with h | h | h
        · exact Or.inl h
        · exact Or.inr (Or.inl h)
        · exact Or.inr (Or.inr h)

/-- C2 counterexample: a concrete run in which the input-completeness gate
(enabled, non-strict, operator proceeds) reports the non-empty missing set
`["a"]` — recorded in the result — yet the final status is `"success"`,
refuting the claim that such a run cannot end with status success. -/
theorem agent_run_success_despite_missing_inputs :
    validate_input_data envInputWarn.vcfg envInputWarn.agentConfig
      envInputWarn.inputData envInputWarn.userResponse = (true, ["a"]) ∧
    (Agent.run envInputWarn).validation_missing_input_fields = some ["a"] ∧
    (Agent.run envInputWarn).status = "success" :=
  ⟨rfl, rfl, rfl⟩

/-- C2 amended: the final status is `"success"` exactly when no exception
reached the outer boundary (no error record) and output validation reported
no missing fields; a non-empty missing-input set found by the non-strict
input gate is recorded in the result but does not change the status. -/
theorem agent_run_success_iff (env : RunEnv) :
    ((Agent.run env).status = "success" ↔
      (Agent.run env).error = none ∧
      (Agent.run env).validation_missing_output_fields = none) := by
  rw [Agent.run]
  rcases hpt : validate_prompt_templates env.vcfg env.agentConfig
      env.promptSystem env.promptUser with ⟨valid, missingRefs⟩
  cases valid
  · dsimp only
    constructor
    · intro hcon; exact absurd hcon (by simp [errResult])
    · rintro ⟨hc, _⟩; exact absurd hc (by simp [errResult])
  · dsimp only
    rcases hin : validate_input_data env.vcfg env.agentConfig env.inputData
        env.userResponse with ⟨v2, mf⟩
    cases v2
    · dsimp only
      constructor
      · intro hcon; exact absurd hcon (by simp [errResult])
      · rintro ⟨hc, _⟩; exact absurd hc (by simp [errResult])
    · dsimp only
      by_cases hmf : mf.isEmpty
      · rw [if_pos hmf]
        exact runStep3_success_iff env _ rfl rfl rfl
      · rw [if_neg hmf]
        exact runStep3_success_iff env _ rfl rfl rfl

/-- C2 amended witness: in the concrete missing-input run, no error and no
missing-output annotation are present, and the status is accordingly
`"success"`. -/
theorem agent_run_success_iff_witness :
    (Agent.run envInputWarn).error = none ∧
    (Agent.run envInputWarn).validation_missing_output_fields = none ∧
    (Agent.run envInputWarn).status = "success" :=
  ⟨rfl, rfl, (agent_run_success_iff envInputWarn).mpr ⟨rfl, rfl⟩⟩

/-- C4 counterexample: a concrete run in which the enabled, non-strict
template gate reports the non-empty unreferenced set `["a"]`; the run does
proceed (to success), but nothing is attached to the result — both
validation annotations stay absent, refuting the claim that the
unreferenced-field list is attached to the returned record. -/
theorem template_gate_findings_not_attached :
    validate_prompt_templates envTemplateWarn.vcfg envTemplateWarn.agentConfig
      envTemplateWarn.promptSystem envTemplateWarn.promptUser = (true, ["a"]) ∧
    (Agent.run envTemplateWarn).status = "success" ∧
    (Agent.run envTemplateWarn).validation_missing_input_fields = none ∧
    (Agent.run envTemplateWarn).validation_missing_output_fields = none :=
  ⟨rfl, rfl, rfl, rfl⟩

/-- C4 amended: with the template gate non-strict, the run proceeds past
template validation and the gate's unreferenced-field list is discarded by
the runner; the result's `validation.missing_input_fields` annotation is
exactly what the input-completeness gate reports (when it passes with a
non-empty missing set), never the template gate's list. -/
theorem agent_run_input_gate_sole_annotator (env : RunEnv)
    (hns : env.vcfg.prompt_template_strict = false) :
    (Agent.run env).validation_missing_input_fields =
      (match validate_input_data env.vcfg env.agentConfig env.inputData
          env.userResponse with
        | (true, mf) => if mf.isEmpty then none else some mf
        | (false, _) => none) := by
  have hfst := validate_prompt_templates_nonstrict env.vcfg env.agentConfig
    env.promptSystem env.promptUser hns
  rw [Agent.run]
  rcases hpt : validate_prompt_templates env.vcfg env.agentConfig
      env.promptSystem env.promptUser with ⟨valid, missingRefs⟩
  cases valid
  · rw [hpt] at hfst; exact absurd hfst (by simp)
  · dsimp only
    rcases hin : validate_input_data env.vcfg env.agentConfig env.inputData
        env.userResponse with ⟨v2, mf⟩
    cases v2
    · rfl
    · dsimp only
      by_cases hmf : mf.isEmpty
      · rw [if_pos hmf, if_pos hmf]
        exact (runStep3_pres env _).2
      · rw [if_neg hmf, if_neg hmf]
        exact (runStep3_pres env _).2

/-- C4 amended witness: in the concrete unreferenced-template run (gate
non-strict, input gate disabled), the result carries no missing-input
annotation. -/
theorem agent_run_input_gate_sole_annotator_witness :
    (Agent.run envTemplateWarn).validation_missing_input_fields = none :=
  (agent_run_input_gate_sole_annotator envTemplateWarn rfl).trans rfl

/-- C6: evaluation of the code at the failing input. With declared output
`b`, strict output validation, and a parsed response missing `b`, the
validator reports failure, but `Agent.run` discards the flag: the status is
`"partial_success"`, not `"error"`, and no error record is produced — the
code contradicts the claimed strict behaviour. The non-strict fill-missing
half behaves as claimed: status `"partial_success"` and `outputs.b = null`. -/
theorem agent_run_output_strict_flag_discarded :
    validate_output_data envOutputStrict.jsonLoads envOutputStrict.extractFenced
      envOutputStrict.vcfg envOutputStrict.agentConfig (.str "R")
      = (false, ["b"], some [("a", .str "x")]) ∧
    (Agent.run envOutputStrict).status = "partial_success" ∧
    (Agent.run envOutputStrict).status ≠ "error" ∧
    (Agent.run envOutputStrict).error = none ∧
    (Agent.run envOutputStrict).validation_missing_output_fields = some ["b"] ∧
    (Agent.run envOutputNonstrict).status = "partial_success" ∧
    dictGet ((Agent.run envOutputNonstrict).outputs.getD []) "b"
      = some .null :=
  ⟨rfl, rfl, by decide, rfl, rfl, rfl, rfl⟩

end SimpleAgents
